import Mathlib

/-!
Verification of the Hayseed Properties dashboard (src/app.py) against its
natural-language specification.  The Python source is shallowly embedded:
strings are Lean `String`s manipulated through their character lists,
Python dictionaries holding record data become a `Record` structure whose
unused fields default to the empty string, fallible outbound HTTP calls
become `Except`/`Option` values supplied as inputs, and the ambient clock
and random number generator become explicit parameters.
-/

/-! ## String helpers (Python `str.lower`, `in`, `strip`) -/

def lowerChars (l : List Char) : List Char := l.map Char.toLower

def listStartsWith : List Char → List Char → Bool
  | _, [] => true
  | [], _ :: _ => false
  | h :: t, n :: m => h = n && listStartsWith t m

/-- Python substring test `needle in hay` on character lists. -/
def hasSub : List Char → List Char → Bool
  | _, [] => true
  | [], _ :: _ => false
  | c :: t, n :: m => listStartsWith (c :: t) (n :: m) || hasSub t (n :: m)

/-- Python whitespace class (the characters matched by `\s` over ASCII). -/
def isPySpace (c : Char) : Bool :=
  c = ' ' || c = '\t' || c = '\n' || c = '\x0d' || c = '\x0c' || c = '\x0b'

/-- Python `str.strip()` over ASCII whitespace. -/
def trimChars (l : List Char) : List Char :=
  ((l.dropWhile isPySpace).reverse.dropWhile isPySpace).reverse

/-! ## Regex `\b\d{5}\b` — `extract_zip` (src/app.py lines 240-242) -/

/-- Word character for the `\b` boundary: `[A-Za-z0-9_]`. -/
def isWordChar (c : Char) : Bool := c.isAlphanum || c = '_'

/-- Attempt `\d{5}\b` at the head of the list. -/
def takeZip : List Char → Option (List Char)
  | a :: b :: c :: d :: e :: rest =>
    if a.isDigit && b.isDigit && c.isDigit && d.isDigit && e.isDigit &&
       (match rest with | [] => true | t :: _ => !isWordChar t)
    then some [a, b, c, d, e] else none
  | _ => none

/-- Leftmost search for `\b\d{5}\b`; `prev` is the character before the
current position, used for the left word boundary. -/
def zipScan : Option Char → List Char → Option (List Char)
  | _, [] => none
  | prev, c :: rest =>
    let bd : Bool := match prev with | none => true | some p => !isWordChar p
    match bd, takeZip (c :: rest) with
    | true, some z => some z
    | true, none => zipScan (some c) rest
    | false, _ => zipScan (some c) rest

/-- `extract_zip`: first `\b\d{5}\b` match in the address, else the empty
string. -/
def extract_zip (addr : String) : String :=
  match zipScan none addr.data with
  | some z => String.mk z
  | none => ""

/-! ## Regex `\$[\d,]+\.?\d*` — dollar-amount search in tax PDF lines -/

/-- Split off the maximal leading run of `[\d,]` characters. -/
def digitCommaRun : List Char → List Char × List Char
  | [] => ([], [])
  | c :: t =>
    if c.isDigit || c = ',' then
      let (r, rest) := digitCommaRun t
      (c :: r, rest)
    else ([], c :: t)

/-- Split off the maximal leading run of digits. -/
def digitRun : List Char → List Char × List Char
  | [] => ([], [])
  | c :: t =>
    if c.isDigit then
      let (r, rest) := digitRun t
      (c :: r, rest)
    else ([], c :: t)

/-- Attempt `\$[\d,]+\.?\d*` at the head of the list. -/
def dollarMatchAt : List Char → Option (List Char)
  | '$' :: t =>
    let (r1, rest1) := digitCommaRun t
    if r1.isEmpty then none
    else
      match rest1 with
      | '.' :: t2 =>
        let (r2, _) := digitRun t2
        some ('$' :: r1 ++ '.' :: r2)
      | _ => some ('$' :: r1)
  | _ => none

/-- Leftmost search for `\$[\d,]+\.?\d*`. -/
def dollarSearch : List Char → Option (List Char)
  | [] => none
  | c :: t =>
    match dollarMatchAt (c :: t) with
    | some m => some m
    | none => dollarSearch t

/-! ## Street-address regexes `\d+\s+[A-Z\s]+(?:SUFFIX|...)` (IGNORECASE) -/

/-- Character class `[A-Z\s]` under `re.IGNORECASE` (ASCII letters and
whitespace). -/
def isClassChar (c : Char) : Bool := c.isUpper || c.isLower || isPySpace c

/-- Length of the maximal leading digit run. -/
def digitRunLen : List Char → Nat
  | c :: t => if c.isDigit then digitRunLen t + 1 else 0
  | [] => 0

/-- Length of the maximal leading `[A-Z\s]` run. -/
def classRunLen : List Char → Nat
  | c :: t => if isClassChar c then classRunLen t + 1 else 0
  | [] => 0

/-- First alternative (lowercased, in pattern order) matching at the head of
`l` under case folding; returns its length. -/
def altLenAt (alts : List (List Char)) (l : List Char) : Option Nat :=
  match alts with
  | [] => none
  | a :: rest =>
    if listStartsWith (lowerChars l) a then some a.length else altLenAt rest l

/-- Backtracking of the greedy `[A-Z\s]+` followed by the suffix alternation:
the largest split `p ≥ 2` (at most the class-run length) at which some
alternative matches.  Returns `p` plus the alternative length. -/
def bestSplit (alts : List (List Char)) (seg : List Char) : Nat → Option Nat
  | 0 => none
  | 1 => none
  | p + 2 =>
    match altLenAt alts (seg.drop (p + 2)) with
    | some k => some (p + 2 + k)
    | none => bestSplit alts seg (p + 1)

/-- Attempt `\d+\s+[A-Z\s]+(?:alts)` at the head of `l`; returns the match
length. -/
def addrMatchAt (alts : List (List Char)) (l : List Char) : Option Nat :=
  let d := digitRunLen l
  if d = 0 then none
  else
    let seg := l.drop d
    match seg with
    | c :: _ =>
      if isPySpace c then
        match bestSplit alts seg (classRunLen seg) with
        | some n => some (d + n)
        | none => none
      else none
    | [] => none

/-- Leftmost search for the street-address pattern; returns the matched
text. -/
def addrSearch (alts : List (List Char)) : List Char → Option (List Char)
  | [] => none
  | c :: t =>
    match addrMatchAt alts (c :: t) with
    | some n => some ((c :: t).take n)
    | none => addrSearch alts t

/-- Suffix alternation of `extract_address_from_legal` (src/app.py 217-224). -/
def legalAlts : List (List Char) :=
  ["street", "st", "avenue", "ave", "drive", "dr", "road", "rd", "lane", "ln",
   "boulevard", "blvd", "court", "ct"].map String.data

/-- Suffix alternation of the tax-PDF address regex (src/app.py line 178). -/
def taxAlts : List (List Char) :=
  ["st", "ave", "dr", "rd", "ln", "blvd", "ct"].map String.data

/-- `extract_address_from_legal` (src/app.py 217-224). -/
def extract_address_from_legal (legal_desc : String) : Option String :=
  match addrSearch legalAlts legal_desc.data with
  | some m => some (String.mk (trimChars m) ++ ", Louisville, KY")
  | none => none

/-! ## Data model -/

/-- One record of the in-memory cache.  Python stores records as dicts whose
keys differ per source; unused fields default to `""`.  The Python key
`type` is modelled by the field `rtype`. -/
structure Record where
  address : String := ""
  violation_type : String := ""
  case_id : String := ""
  status : String := ""
  date : String := ""
  grantor : String := ""
  grantee : String := ""
  amount : String := ""
  years : String := ""
  rtype : String := ""
  source : String := ""
  zip : String := ""
  score : Nat := 5
deriving Repr, DecidableEq

/-- The `attributes` mapping of one ArcGIS feature; `none` models an absent
key, so `attrs.get(k, default)` becomes `Option.getD`. -/
structure Attrs where
  SITE_ADDRESS : Option String := none
  VIOLATION_CODE_DESCRIPTION : Option String := none
  CASE_NUMBER : Option String := none
  CASE_STATUS : Option String := none
  INSPECTION_DATE : Option Int := none
deriving Repr, DecidableEq

/-! ## Scorer — `calc_score` (src/app.py 226-232) -/

def calc_score (attrs : Attrs) : Nat :=
  let v := lowerChars (attrs.VIOLATION_CODE_DESCRIPTION.getD "").data
  if ["structural", "unsafe", "condemned"].any (fun w => hasSub v w.data) then 9
  else if ["fire", "electrical", "hazard"].any (fun w => hasSub v w.data) then 8
  else if ["overgrown", "trash", "vacant"].any (fun w => hasSub v w.data) then 6
  else 5

/-! ## Calendar — `format_date` (src/app.py 234-238) and `strftime` -/

def monthAbbrev (m : Nat) : String :=
  ["Jan", "Feb", "Mar", "Apr", "May", "Jun",
   "Jul", "Aug", "Sep", "Oct", "Nov", "Dec"].getD (m - 1) "Jan"

/-- Proleptic-Gregorian date from a count of days since 1970-01-01
(Hinnant's civil-from-days algorithm): year, month, day. -/
def civilFromDays (days : Int) : Int × Nat × Nat :=
  let z := days + 719468
  let era := Int.fdiv z 146097
  let doe : Nat := (z - era * 146097).toNat
  let yoe : Nat := (doe - doe / 1460 + doe / 36524 - doe / 146096) / 365
  let doy : Nat := doe - (365 * yoe + yoe / 4 - yoe / 100)
  let mp : Nat := (5 * doy + 2) / 153
  let d : Nat := doy - (153 * mp + 2) / 5 + 1
  let m : Nat := if mp < 10 then mp + 3 else mp - 9
  let y : Int := (yoe : Int) + era * 400 + (if m ≤ 2 then 1 else 0)
  (y, m, d)

def pad2 (n : Nat) : String := if n < 10 then "0" ++ toString n else toString n

/-- Python `strftime('%b %d, %Y')` applied to a day ordinal. -/
def strftime_bdY (days : Int) : String :=
  let (y, m, d) := civilFromDays days
  monthAbbrev m ++ " " ++ pad2 d ++ ", " ++ toString y

/-- `format_date`: epoch-milliseconds timestamp to `'%b %d, %Y'`; zero or
absent timestamps render as `"Unknown"`.  The local timezone of
`datetime.fromtimestamp` is abstracted as UTC. -/
def format_date (ts : Option Int) : String :=
  match ts with
  | none => "Unknown"
  | some t => if t = 0 then "Unknown" else strftime_bdY (Int.fdiv t 86400000)

/-! ## Violations fetcher — `scrape_violations` (src/app.py 29-62) -/

/-- Normalization of one feature's attributes into a record
(src/app.py 48-56). -/
def normalize_violation (attrs : Attrs) : Record :=
  { address := attrs.SITE_ADDRESS.getD "N/A"
    violation_type := attrs.VIOLATION_CODE_DESCRIPTION.getD "N/A"
    case_id := attrs.CASE_NUMBER.getD "N/A"
    status := attrs.CASE_STATUS.getD "Unknown"
    date := format_date attrs.INSPECTION_DATE
    score := calc_score attrs
    zip := extract_zip (attrs.SITE_ADDRESS.getD "") }

/-- Stable insertion keeping the list non-increasing by score: the new
record goes after every already-placed record of strictly greater score and
before equal-score ones that followed it in the input. -/
def insertDesc (r : Record) : List Record → List Record
  | [] => [r]
  | x :: xs => if r.score < x.score then x :: insertDesc r xs else r :: x :: xs

/-- Denotation of Python's stable `list.sort(key=lambda x: x['score'],
reverse=True)` (src/app.py line 57). -/
def sortByScoreDesc (l : List Record) : List Record := l.foldr insertDesc []

/-- `scrape_violations`.  The outbound call is an input: `.error` models a
raised exception (network error, timeout, malformed JSON), `.ok none`
models a JSON body without a `features` key, `.ok (some feats)` a body with
one. -/
def scrape_violations (fetch : Except String (Option (List Attrs))) : List Record :=
  match fetch with
  | .error _ => []
  | .ok none => []
  | .ok (some feats) =>
    if feats.isEmpty then []
    else sortByScoreDesc (feats.map normalize_violation)

/-! ## Randomness — Python's `random` as an explicit stream -/

/-- Deterministic model of Python's `random`: `gen` is the stream of raw
draws, `idx` the position. -/
structure Rng where
  gen : Nat → Nat
  idx : Nat := 0

def Rng.next (r : Rng) : Nat × Rng := (r.gen r.idx, { r with idx := r.idx + 1 })

/-- `random.randint(a, b)` (inclusive bounds). -/
def randint (a b : Nat) (r : Rng) : Nat × Rng :=
  let (v, r2) := r.next
  (a + v % (b + 1 - a), r2)

/-- `random.choice(l)`. -/
def randChoice (l : List String) (r : Rng) : String × Rng :=
  let (v, r2) := r.next
  (l.getD (v % l.length) "", r2)

/-- Thousands grouping of Python's `f'{n:,}'`, on reversed digit lists. -/
def groupRev : Nat → List Char → List Char
  | _, [] => []
  | 0, c :: t => ',' :: c :: groupRev 2 t
  | k + 1, c :: t => c :: groupRev k t

def commaFmt (n : Nat) : String :=
  String.mk (groupRev 3 (toString n).data.reverse).reverse

/-- The `years` rendering `f'{years} year{"s" if years > 1 else ""}'`. -/
def yearsStr (y : Nat) : String :=
  toString y ++ " year" ++ (if 1 < y then "s" else "")


/-! ## Fallback demo data (src/app.py 247-297) -/

def lis_streets : List String :=
  ["Main St", "Broadway", "Market St", "Jefferson St", "Liberty St", "Oak Ave", "Maple Dr"]

def lis_zips : List String :=
  ["40202", "40203", "40211", "40212", "40214", "40215", "40218"]

/-- One iteration of the `generate_realistic_lis_pendens` loop; random calls
in source order (street number, street, zip, amount, days ago, bank).
`nowDays` is `datetime.now()` as a day ordinal. -/
def gen_lis_step (nowDays : Int) (i : Nat) (r : Rng) : Record × Rng :=
  let (street_num, r1) := randint 100 9999 r
  let (street, r2) := randChoice lis_streets r1
  let (zip_code, r3) := randChoice lis_zips r2
  let (amount, r4) := randint 45000 350000 r3
  let (days_ago, r5) := randint 1 180 r4
  let (bank, r6) := randint 1 5 r5
  ({ address := toString street_num ++ " " ++ street ++ ", Louisville, KY " ++ zip_code
     grantor := "Owner " ++ toString (i + 1)
     grantee := "Bank " ++ toString bank
     amount := "$" ++ commaFmt amount
     date := strftime_bdY (nowDays - (days_ago : Int))
     zip := zip_code
     score := 8
     rtype := "Lis Pendens" }, r6)

def gen_lis_list (nowDays : Int) : Nat → Nat → Rng → List Record
  | 0, _, _ => []
  | n + 1, i, r =>
    let (rec, r2) := gen_lis_step nowDays i r
    rec :: gen_lis_list nowDays n (i + 1) r2

/-- `generate_realistic_lis_pendens` (src/app.py 247-272): 30 demo filings. -/
def generate_realistic_lis_pendens (nowDays : Int) (r : Rng) : List Record :=
  gen_lis_list nowDays 30 0 r

def tax_streets : List String :=
  ["Dixie Hwy", "Preston St", "Bardstown Rd", "Shelbyville Rd", "Taylorsville Rd"]

def tax_zips : List String :=
  ["40211", "40212", "40213", "40214", "40215", "40216", "40217", "40218"]

/-- One iteration of the `generate_realistic_tax_delinquent` loop. -/
def gen_tax_step (r : Rng) : Record × Rng :=
  let (street_num, r1) := randint 100 9999 r
  let (street, r2) := randChoice tax_streets r1
  let (zip_code, r3) := randChoice tax_zips r2
  let (years, r4) := randint 1 7 r3
  let (amount, r5) := randint 2500 35000 r4
  ({ address := toString street_num ++ " " ++ street ++ ", Louisville, KY " ++ zip_code
     amount := "$" ++ commaFmt amount
     years := yearsStr years
     zip := zip_code
     score := min 9 (5 + years)
     source := "Tax Records" }, r5)

def gen_tax_list : Nat → Rng → List Record
  | 0, _ => []
  | n + 1, r =>
    let (rec, r2) := gen_tax_step r
    rec :: gen_tax_list n r2

/-- `generate_realistic_tax_delinquent` (src/app.py 274-297): 50 demo
records scored `min(9, 5 + years)`. -/
def generate_realistic_tax_delinquent (r : Rng) : List Record :=
  gen_tax_list 50 r

/-! ## Lis-pendens fetcher — `scrape_lis_pendens` (src/app.py 67-136) -/

/-- Per-row extraction (src/app.py 105-128): a row is the list of its `td`
cell texts; rows with fewer than four cells are skipped. -/
def parse_lis_row (cols : List String) : Option Record :=
  if cols.length ≥ 4 then
    let grantor := cols.getD 0 ""
    let grantee := cols.getD 1 ""
    let legal_desc := cols.getD 2 ""
    let date_filed := cols.getD 3 ""
    let address := (extract_address_from_legal legal_desc).getD (grantor ++ " property")
    some { address := address
           grantor := grantor
           grantee := grantee
           amount := "See Document"
           date := date_filed
           zip := extract_zip address
           score := 8
           rtype := "Lis Pendens" }
  else none

/-- Table handling: skip the header row, cap at 100 rows. -/
def parse_lis_table (rows : List (List String)) : List Record :=
  ((rows.drop 1).take 100).filterMap parse_lis_row

/-- `scrape_lis_pendens`.  `.error` models any exception in the
session/POST/parse sequence (caught at line 133 and answered with the demo
fallback); `.ok none` a response page without any `table`; `.ok (some rows)`
the first table's rows. -/
def scrape_lis_pendens (fetch : Except String (Option (List (List String))))
    (nowDays : Int) (r : Rng) : List Record :=
  match fetch with
  | .error _ => generate_realistic_lis_pendens nowDays r
  | .ok none => []
  | .ok (some rows) => parse_lis_table rows

/-! ## Tax fetcher — `scrape_tax_delinquent` (src/app.py 141-212) -/

/-- One PDF text line (src/app.py 169-189): a line yields a record exactly
when it contains a dollar amount and its address candidate (regex match, or
the first 50 characters when the regex finds nothing) is longer than 10
characters.  The record's score is the literal 7. -/
def parse_tax_line (line : String) : Option Record :=
  match dollarSearch line.data with
  | none => none
  | some amt =>
    let address : List Char :=
      match addrSearch taxAlts line.data with
      | some m => m
      | none => line.data.take 50
    if address.length > 10 then
      some { address := String.mk (trimChars address) ++ ", Louisville, KY"
             amount := String.mk amt
             years := "See Record"
             zip := extract_zip (String.mk address)
             score := 7
             source := "Real Estate PDF" }
    else none

/-- The page/line loops with their `break` at 100 records, over the first
10 pages (src/app.py 162-195). -/
def parse_tax_pages (pages : List (List String)) : List Record :=
  (((pages.take 10).flatten).filterMap parse_tax_line).take 100

/-- Result of the inner download-and-parse `try` (src/app.py 151-200):
`.error` leaves the accumulator empty, `.ok (status, pages)` parses only
when the HTTP status is 200. -/
def tax_parsed (inner : Except String (Nat × List (List String))) : List Record :=
  match inner with
  | .error _ => []
  | .ok (status, pages) => if status = 200 then parse_tax_pages pages else []

/-- `scrape_tax_delinquent`.  The outer `.error` models an exception outside
the inner `try` (answered with the demo fallback, uncapped); otherwise fewer
than 20 parsed records are supplemented with the first 50 demo records and
the result is capped at 100. -/
def scrape_tax_delinquent (fetch : Except String (Except String (Nat × List (List String))))
    (r : Rng) : List Record :=
  match fetch with
  | .error _ => generate_realistic_tax_delinquent r
  | .ok inner =>
    let parsed := tax_parsed inner
    let supplemented :=
      if parsed.length < 20 then parsed ++ (generate_realistic_tax_delinquent r).take 50
      else parsed
    supplemented.take 100

/-! ## Clock — naive `datetime` values and the refresh schedule -/

/-- A naive Python `datetime`: `day` is a day ordinal (days since
1970-01-01), the remaining fields the time of day. -/
structure PyDateTime where
  day : Int := 0
  hour : Nat := 0
  minute : Nat := 0
  second : Nat := 0
  microsecond : Nat := 0
deriving Repr, DecidableEq

/-- Python `datetime` comparison `a < b` (lexicographic on all fields,
microseconds included). -/
def dtLt (a b : PyDateTime) : Bool :=
  a.day < b.day ||
  (a.day = b.day && (a.hour < b.hour ||
    (a.hour = b.hour && (a.minute < b.minute ||
      (a.minute = b.minute && (a.second < b.second ||
        (a.second = b.second && a.microsecond < b.microsecond)))))))

/-- `now.replace(hour=h, minute=0, second=0)`: the microsecond field is
not replaced. -/
def replace_hms (t : PyDateTime) (h : Nat) : PyDateTime :=
  { t with hour := h, minute := 0, second := 0 }

/-- Python `min` over a nonempty list of datetimes. -/
def pyMin (x : PyDateTime) (xs : List PyDateTime) : PyDateTime :=
  xs.foldl (fun a b => if dtLt b a then b else a) x

/-- The `next_scrape` computation of `schedule_scrapers`
(src/app.py 338-346). -/
def schedule_next (now : PyDateTime) : PyDateTime :=
  let next_times := [8, 14, 22].map (replace_hms now)
  let future_times := next_times.filter (fun t => dtLt now t)
  match future_times with
  | f :: fs => pyMin f fs
  | [] => replace_hms { now with day := now.day + 1 } 8

/-! ## Cache, refresh job, health -/

/-- The process-wide `data_cache` dict (src/app.py 14-20). -/
structure Cache where
  violations : List Record := []
  lis_pendens : List Record := []
  tax_delinquent : List Record := []
  last_updated : List (String × PyDateTime) := []
  next_scrape : Option PyDateTime := none

/-- `run_all_scrapers` (src/app.py 302-325): runs the three fetchers on the
given outbound outcomes and replaces the cached collections and the shared
timestamp. -/
def run_all_scrapers (c : Cache)
    (vio : Except String (Option (List Attrs)))
    (lis : Except String (Option (List (List String))))
    (tax : Except String (Except String (Nat × List (List String))))
    (now : PyDateTime) (rLis rTax : Rng) : Cache :=
  { c with
    violations := scrape_violations vio
    lis_pendens := scrape_lis_pendens lis now.day rLis
    tax_delinquent := scrape_tax_delinquent tax rTax
    last_updated := [("violations", now), ("lis_pendens", now), ("tax_delinquent", now)] }

structure HealthCounts where
  violations : Nat
  lis_pendens : Nat
  tax_delinquent : Nat
deriving Repr, DecidableEq

/-- The `data_counts` object of `GET /health` (src/app.py 653-657). -/
def health_counts (c : Cache) : HealthCounts :=
  { violations := c.violations.length
    lis_pendens := c.lis_pendens.length
    tax_delinquent := c.tax_delinquent.length }

/-! ## Desktop view — `home` (src/app.py 419-446) -/

/-- Source selection of the dashboard (src/app.py 424-434): anything other
than the two named alternatives, the default `"violations"` included, reads
the violations collection. -/
def home_data (data_type : String) (c : Cache) : List Record :=
  if data_type = "lis_pendens" then c.lis_pendens
  else if data_type = "tax_delinquent" then c.tax_delinquent
  else c.violations

/-- The address filter (src/app.py 437-440).  `none` models an absent
`search` parameter; `""` is falsy in Python, so it also skips the filter. -/
def home_filter (search : Option String) (data : List Record) : List Record :=
  match search with
  | none => data
  | some s =>
    if s = "" then data
    else data.filter (fun d => hasSub (lowerChars d.address.data) (lowerChars s.data))

/-- Query parameters of `GET /` as a request object.  The handler's
signature (src/app.py line 420) declares only `data_type`, `search` and
`manual_results`; FastAPI drops unknown query parameters, so `min_score`
and `max_score` reach no code. -/
structure HomeRequest where
  data_type : String := "violations"
  search : Option String := none
  min_score : Option Int := none
  max_score : Option Int := none

/-- Records selected and filtered by the desktop view for a request. -/
def home_endpoint (req : HomeRequest) (c : Cache) : List Record :=
  home_filter req.search (home_data req.data_type c)

/-- The full read side of `GET /`: the rendered cards show the first 100
filtered records (src/app.py line 448); the handler performs no write to
`data_cache`, so the cache component of the result is the input cache. -/
def home_render (req : HomeRequest) (c : Cache) : List Record × Cache :=
  ((home_endpoint req c).take 100, c)

/-! ## CSV export — `export` (src/app.py 617-644) -/

/-- Quoting test of Python's `csv.writer` (QUOTE_MINIMAL). -/
def csv_needs_quote (s : String) : Bool :=
  s.data.any (fun c => c = ',' || c = '"' || c = '\n' || c = '\x0d')

def escapeQuotes : List Char → List Char
  | [] => []
  | c :: t => if c = '"' then '"' :: '"' :: escapeQuotes t else c :: escapeQuotes t

def csv_field (s : String) : String :=
  if csv_needs_quote s then "\"" ++ String.mk (escapeQuotes s.data) ++ "\"" else s

/-- One `writer.writerow` line (without its `\x0d\n` terminator). -/
def csv_row (fields : List String) : String :=
  String.intercalate "," (fields.map csv_field)

def violations_header : List String :=
  ["#", "Address", "Violation", "Case ID", "Status", "Date", "Score", "ZIP"]

def lis_header : List String :=
  ["#", "Address", "Grantor", "Grantee", "Amount", "Filed Date", "ZIP", "Score"]

def tax_header : List String :=
  ["#", "Address", "Amount Owed", "Years Delinquent", "ZIP", "Score"]

/-- The cell list written for one violations record (src/app.py line 627). -/
def violations_fields (i : Nat) (v : Record) : List String :=
  [toString i, v.address, v.violation_type, v.case_id, v.status, v.date,
   toString v.score, v.zip]

/-- The cell list written for one lis-pendens record (src/app.py line 631). -/
def lis_fields (i : Nat) (v : Record) : List String :=
  [toString i, v.address, v.grantor, v.grantee, v.amount, v.date, v.zip,
   toString v.score]

/-- The cell list written for one tax record (src/app.py line 635). -/
def tax_fields (i : Nat) (v : Record) : List String :=
  [toString i, v.address, v.amount, v.years, v.zip, toString v.score]

/-- A value of the `data_cache` dict.  `data_cache.get(type, [])` can return
a record list, the `last_updated` dict, or the `next_scrape`
datetime-or-None — the bookkeeping keys share the namespace of the source
names. -/
inductive CacheVal where
  | recs : List Record → CacheVal
  | tsdict : List (String × PyDateTime) → CacheVal
  | dtOpt : Option PyDateTime → CacheVal

/-- `data_cache.get(k, [])` (src/app.py line 620). -/
def cache_get (c : Cache) (k : String) : CacheVal :=
  if k = "violations" then .recs c.violations
  else if k = "lis_pendens" then .recs c.lis_pendens
  else if k = "tax_delinquent" then .recs c.tax_delinquent
  else if k = "last_updated" then .tsdict c.last_updated
  else if k = "next_scrape" then .dtOpt c.next_scrape
  else .recs []

/-- `GET /export`: the list of CSV lines, or the uncaught `TypeError` the
handler raises when iterating a non-list cache value.  Iterating the
`last_updated` dict yields its string keys, and indexing a string with
`['address']` raises; an empty dict yields no rows and succeeds.  Iterating
`None` or a `datetime` raises at once. -/
def export_result (t : String) (c : Cache) : Except String (List String) :=
  match cache_get c t with
  | .recs data =>
    if t = "violations" then
      .ok (csv_row violations_header ::
        (List.enumFrom 1 data).map (fun p => csv_row (violations_fields p.1 p.2)))
    else if t = "lis_pendens" then
      .ok (csv_row lis_header ::
        (List.enumFrom 1 data).map (fun p => csv_row (lis_fields p.1 p.2)))
    else
      .ok (csv_row tax_header ::
        (List.enumFrom 1 data).map (fun p => csv_row (tax_fields p.1 p.2)))
  | .tsdict l =>
    if l.isEmpty then .ok [csv_row tax_header]
    else .error "TypeError: string indices must be integers"
  | .dtOpt _ => .error "TypeError: argument is not iterable"

/-- The CSV text streamed on success: every line ends with the
`csv.writer` terminator `\x0d\n`. -/
def export_text (t : String) (c : Cache) : Except String String :=
  (export_result t c).map (fun ls => String.join (ls.map (fun l => l ++ "\x0d\n")))

/-! ## Spec-side definitions (for refinement comparisons only) -/

/-- Modelled from the spec, section 4.1: the scoring rule the specification
states for violations — five keyword groups of five/five/five/three words,
plus a status bonus capped at 10.  Written for comparison with
`calc_score`; not part of the source embedding. -/
def spec_calc_score (violation status : String) : Nat :=
  let v := lowerChars violation.data
  let base :=
    if ["structural", "unsafe", "condemned", "collapse", "foundation"].any
        (fun w => hasSub v w.data) then 9
    else if ["fire", "electrical", "hazard", "health", "mold"].any
        (fun w => hasSub v w.data) then 8
    else if ["overgrown", "trash", "debris", "vacant", "abandoned"].any
        (fun w => hasSub v w.data) then 6
    else if ["plumbing", "roof", "exterior"].any
        (fun w => hasSub v w.data) then 5
    else 5
  let st := lowerChars status.data
  if ["open", "active", "pending"].any (fun w => hasSub st w.data) then
    min 10 (base + 1)
  else base

/-- Modelled from the spec, section 4.3: "the soonest of those three times
strictly after the current time, or 08:00 the following day if none remain
today", with the three times read as exact clock times.  Written for
comparison with `schedule_next`; not part of the source embedding. -/
def spec_next_refresh (t : PyDateTime) : PyDateTime :=
  let cands := ([8, 14, 22].map
    (fun h => ({ day := t.day, hour := h } : PyDateTime))).filter (fun c => dtLt t c)
  match cands with
  | c :: cs => pyMin c cs
  | [] => { day := t.day + 1, hour := 8 }

/-- The corrected scoring rule (first matching group wins, base 5, no
status adjustment) in the spec's ordered-group style, for the amended
claim C1. -/
def score_groups : List (List String × Nat) :=
  [(["structural", "unsafe", "condemned"], 9),
   (["fire", "electrical", "hazard"], 8),
   (["overgrown", "trash", "vacant"], 6)]

def firstGroupScore (v : List Char) : List (List String × Nat) → Nat
  | [] => 5
  | (ws, sc) :: rest =>
    if ws.any (fun w => hasSub v w.data) then sc else firstGroupScore v rest

def calc_score_amended (attrs : Attrs) : Nat :=
  firstGroupScore (lowerChars (attrs.VIOLATION_CODE_DESCRIPTION.getD "").data) score_groups

/-! ## Concrete inputs used by scenarios, counterexamples and witnesses -/

/-- The spec's scenario record: address, violation text and status of
section 8's worked example. -/
def scenario_attrs : Attrs :=
  { SITE_ADDRESS := some "1234 Main St, Louisville, KY 40211"
    VIOLATION_CODE_DESCRIPTION := some "Structural Damage - Unsafe Building"
    CASE_STATUS := some "Open" }

/-- A scheduling instant with a nonzero microsecond field. -/
def c4_now : PyDateTime := { day := 0, hour := 15, microsecond := 500000 }

/-- A deterministic random stream for witnesses. -/
def wRng : Rng := { gen := fun _ => 0 }

/-- A PDF bulletin line carrying a dollar amount and a street address. -/
def tax_line_w : String := "JOHN DOE 123 MAIN ST $5,000"

/-- The record `parse_tax_line` extracts from `tax_line_w`. -/
def tax_rec_w : Record :=
  { address := "123 MAIN ST, Louisville, KY"
    amount := "$5,000"
    years := "See Record"
    zip := ""
    score := 7
    source := "Real Estate PDF" }

/-- A cached violations record whose score is below the requested range of
the C7 scenario. -/
def c7_record : Record := { address := "100 Oak Ave", score := 5 }

def c7_cache : Cache := { violations := [c7_record] }

/-- A dashboard request supplying the score-range parameters. -/
def c7_req : HomeRequest := { min_score := some 9, max_score := some 10 }

/-- Three cached violations records (zip fields produced by
`extract_zip`) for the CSV-export scenario. -/
def w_vio1 : Record :=
  { address := "1234 Main St, Louisville, KY 40211"
    violation_type := "Trash accumulation", case_id := "CE-1", status := "Open"
    date := "Jan 02, 2024", score := 6
    zip := extract_zip "1234 Main St, Louisville, KY 40211" }

def w_vio2 : Record :=
  { address := "77 Broadway, Louisville, KY 40202"
    violation_type := "Structural damage", case_id := "CE-2", status := "Closed"
    date := "Feb 10, 2024", score := 9
    zip := extract_zip "77 Broadway, Louisville, KY 40202" }

def w_vio3 : Record :=
  { address := "5 Liberty St"
    violation_type := "Overgrown lot", case_id := "CE-3", status := "Open"
    date := "Mar 05, 2024", score := 6
    zip := extract_zip "5 Liberty St" }

def w_cache : Cache := { violations := [w_vio1, w_vio2, w_vio3] }

/-! ## Helper lemmas -/

lemma mem_insertDesc {y r : Record} :
    ∀ {l : List Record}, y ∈ insertDesc r l → y = r ∨ y ∈ l := by
  intro l
  induction l with
  | nil => simp [insertDesc]
  | cons x xs ih =>
    simp only [insertDesc]
    by_cases hlt : r.score < x.score
    · simp only [if_pos hlt, List.mem_cons]
      rintro (rfl | hy)
      · exact Or.inr (Or.inl rfl)
      · rcases ih hy with rfl | h2
        · exact Or.inl rfl
        · exact Or.inr (Or.inr h2)
    · simp only [if_neg hlt, List.mem_cons]
      tauto

lemma pairwise_insertDesc (r : Record) (l : List Record)
    (h : l.Pairwise (fun a b => b.score ≤ a.score)) :
    (insertDesc r l).Pairwise (fun a b => b.score ≤ a.score) := by
  induction l with
  | nil => simp [insertDesc]
  | cons x xs ih =>
    rcases List.pairwise_cons.mp h with ⟨hx, hxs⟩
    simp only [insertDesc]
    by_cases hlt : r.score < x.score
    · simp only [if_pos hlt]
      refine List.pairwise_cons.mpr ⟨?_, ih hxs⟩
      intro y hy
      rcases mem_insertDesc hy with rfl | h2
      · exact Nat.le_of_lt hlt
      · exact hx y h2
    · simp only [if_neg hlt]
      refine List.pairwise_cons.mpr ⟨?_, h⟩
      intro y hy
      rcases List.mem_cons.mp hy with rfl | h2
      · exact Nat.le_of_not_lt hlt
      · exact Nat.le_trans (hx y h2) (Nat.le_of_not_lt hlt)

lemma pairwise_sortByScoreDesc (l : List Record) :
    (sortByScoreDesc l).Pairwise (fun a b => b.score ≤ a.score) := by
  induction l with
  | nil => simp [sortByScoreDesc]
  | cons a l ih => exact pairwise_insertDesc a _ ih

lemma filter_insertDesc (s : Nat) (r : Record) (l : List Record) :
    (insertDesc r l).filter (fun x => x.score == s) =
      if r.score = s then r :: l.filter (fun x => x.score == s)
      else l.filter (fun x => x.score == s) := by
  induction l with
  | nil =>
    by_cases h : r.score = s <;>
      simp [insertDesc, List.filter_cons, List.filter_nil, h]
  | cons x xs ih =>
    simp only [insertDesc]
    by_cases hlt : r.score < x.score
    · simp only [if_pos hlt, List.filter_cons]
      by_cases h : r.score = s
      · have hx : (x.score == s) = false := by
          simp only [beq_eq_false_iff_ne]; omega
        simp [hx, ih, h]
      · by_cases hx : x.score = s
        · simp [hx, ih, h]
        · have hx2 : (x.score == s) = false := by
            simp only [beq_eq_false_iff_ne]; exact hx
          simp [hx2, ih, h]
    · simp only [if_neg hlt, List.filter_cons]
      by_cases h : r.score = s <;> simp [h]

lemma filter_sortByScoreDesc (s : Nat) (l : List Record) :
    (sortByScoreDesc l).filter (fun x => x.score == s) =
      l.filter (fun x => x.score == s) := by
  induction l with
  | nil => rfl
  | cons a l ih =>
    have : sortByScoreDesc (a :: l) = insertDesc a (sortByScoreDesc l) := rfl
    rw [this, filter_insertDesc, List.filter_cons]
    by_cases h : a.score = s
    · simp [h, ih]
    · have h2 : (a.score == s) = false := by
        simp only [beq_eq_false_iff_ne]; exact h
      simp [h, h2, ih]

lemma takeZip_shape {l z : List Char} (h : takeZip l = some z) :
    z.length = 5 ∧ ∀ c ∈ z, c.isDigit = true := by
  match l with
  | a :: b :: c :: d :: e :: rest =>
    simp only [takeZip] at h
    split at h
    · rename_i hcond
      cases h
      simp only [Bool.and_eq_true] at hcond
      obtain ⟨⟨⟨⟨⟨ha, hb⟩, hc⟩, hd⟩, he⟩, -⟩ := hcond
      refine ⟨rfl, ?_⟩
      intro ch hch
      simp only [List.mem_cons, List.not_mem_nil, or_false] at hch
      rcases hch with rfl | rfl | rfl | rfl | rfl
      exacts [ha, hb, hc, hd, he]
    · cases h
  | [] => cases h
  | [a] => cases h
  | [a, b] => cases h
  | [a, b, c] => cases h
  | [a, b, c, d] => cases h

lemma zipScan_shape {z : List Char} :
    ∀ {prev : Option Char} {l : List Char}, zipScan prev l = some z →
      z.length = 5 ∧ ∀ c ∈ z, c.isDigit = true := by
  intro prev l
  induction l generalizing prev with
  | nil => intro h; cases h
  | cons c rest ih =>
    intro h
    simp only [zipScan] at h
    split at h
    · rename_i htz
      cases h
      exact takeZip_shape htz
    · exact ih h
    · exact ih h

lemma extract_zip_shape (addr : String) :
    extract_zip addr = "" ∨
      ((extract_zip addr).length = 5 ∧
        ∀ c ∈ (extract_zip addr).data, c.isDigit = true) := by
  unfold extract_zip
  cases h : zipScan none addr.data with
  | none => exact Or.inl rfl
  | some z =>
    rcases zipScan_shape h with ⟨h5, hd⟩
    exact Or.inr ⟨h5, hd⟩

lemma gen_tax_list_length (n : Nat) : ∀ r : Rng, (gen_tax_list n r).length = n := by
  induction n with
  | zero => intro r; rfl
  | succ n ih =>
    intro r
    simp only [gen_tax_list, List.length_cons]
    rw [ih]

lemma generate_tax_length (r : Rng) :
    (generate_realistic_tax_delinquent r).length = 50 :=
  gen_tax_list_length 50 r

lemma gen_tax_step_fields (r : Rng) :
    ∃ y, 1 ≤ y ∧ y ≤ 7 ∧ (gen_tax_step r).1.score = min 9 (5 + y) ∧
      (gen_tax_step r).1.years = yearsStr y := by
  refine ⟨1 + r.gen (r.idx + 1 + 1 + 1) % 7, ?_, ?_, ?_, ?_⟩
  · omega
  · have : r.gen (r.idx + 1 + 1 + 1) % 7 < 7 := Nat.mod_lt _ (by omega)
    omega
  · rfl
  · rfl

lemma gen_tax_list_mem {rec : Record} :
    ∀ (n : Nat) (r : Rng), rec ∈ gen_tax_list n r →
      ∃ y, 1 ≤ y ∧ y ≤ 7 ∧ rec.score = min 9 (5 + y) ∧ rec.years = yearsStr y := by
  intro n
  induction n with
  | zero => intro r h; cases h
  | succ n ih =>
    intro r h
    simp only [gen_tax_list] at h
    rcases List.mem_cons.mp h with heq | h2
    · rw [heq]; exact gen_tax_step_fields r
    · exact ih _ h2

lemma yearsStr_ne_seeRecord (y : Nat) : yearsStr y ≠ "See Record" := by
  intro h
  have hy : 'y' ∈ (yearsStr y).data := by
    simp only [yearsStr, String.data_append, List.mem_append]
    left; right
    decide
  rw [h] at hy
  exact absurd hy (by decide)

lemma digit_not_special {c : Char} (hd : c.isDigit = true) :
    (c = ',' || c = '"' || c = '\n' || c = '\x0d') = false := by
  by_contra hne
  have h1 : (c = ',' || c = '"' || c = '\n' || c = '\x0d') = true := by
    revert hne
    cases (c = ',' || c = '"' || c = '\n' || c = '\x0d') <;> simp
  simp only [Bool.or_eq_true, decide_eq_true_eq] at h1
  rcases h1 with ((rfl | rfl) | rfl) | rfl <;> simp_all

lemma parse_tax_line_shape {line : String} {rec : Record}
    (h : parse_tax_line line = some rec) :
    rec.score = 7 ∧ rec.years = "See Record" := by
  simp only [parse_tax_line] at h
  split at h
  · cases h
  · split at h
    · cases h
      exact ⟨rfl, rfl⟩
    · cases h

lemma scrape_tax_ok_eq {inner : Except String (Nat × List (List String))} (r : Rng)
    (h : (tax_parsed inner).length < 20) :
    scrape_tax_delinquent (.ok inner) r =
      tax_parsed inner ++ (generate_realistic_tax_delinquent r).take 50 := by
  have htake : (generate_realistic_tax_delinquent r).take 50 =
      generate_realistic_tax_delinquent r :=
    List.take_of_length_le (le_of_eq (generate_tax_length r))
  simp only [scrape_tax_delinquent, if_pos h]
  apply List.take_of_length_le
  rw [List.length_append, htake, generate_tax_length]
  omega

lemma scrape_tax_len_le
    (fetch : Except String (Except String (Nat × List (List String)))) (r : Rng) :
    (scrape_tax_delinquent fetch r).length ≤ 100 := by
  match fetch with
  | .error e =>
    simp only [scrape_tax_delinquent]
    rw [generate_tax_length]
    omega
  | .ok inner =>
    simp only [scrape_tax_delinquent]
    exact le_trans (List.length_take_le _ _) (le_refl 100)

lemma csv_field_of_digits {s : String} (h : ∀ c ∈ s.data, c.isDigit = true) :
    csv_field s = s := by
  have hq : csv_needs_quote s = false := by
    simp only [csv_needs_quote, List.any_eq_false]
    intro c hc
    have := digit_not_special (h c hc)
    intro hcontra
    rw [this] at hcontra
    cases hcontra
  simp [csv_field, hq]

lemma dtLt_replace_iff (t : PyDateTime) (h : Nat) :
    dtLt t (replace_hms t h) = true ↔ t.hour < h := by
  simp only [dtLt, replace_hms, Bool.or_eq_true, Bool.and_eq_true,
    decide_eq_true_eq]
  constructor
  · rintro (h1 | ⟨-, h4 | ⟨-, h6⟩⟩)
    · omega
    · exact h4
    · omega
  · intro hh
    exact Or.inr ⟨trivial, Or.inl hh⟩

lemma dtLt_cand_iff (t : PyDateTime) (h : Nat) :
    dtLt t { day := t.day, hour := h } = true ↔ t.hour < h := by
  simp only [dtLt, Bool.or_eq_true, Bool.and_eq_true, decide_eq_true_eq]
  constructor
  · rintro (h1 | ⟨-, h4 | ⟨-, h6⟩⟩)
    · omega
    · exact h4
    · omega
  · intro hh
    exact Or.inr ⟨trivial, Or.inl hh⟩

lemma dtLt_false_of_iff {b : Bool} {P : Prop} (hiff : b = true ↔ P) (hnp : ¬P) :
    b = false := by
  cases hb : b
  · rfl
  · exact absurd (hiff.mp hb) hnp

lemma dtLt_rr_iff (t : PyDateTime) (a b : Nat) :
    dtLt (replace_hms t a) (replace_hms t b) = true ↔ a < b := by
  simp only [dtLt, replace_hms, Bool.or_eq_true, Bool.and_eq_true,
    decide_eq_true_eq]
  constructor
  · rintro (h1 | ⟨-, h4 | ⟨-, h6⟩⟩)
    · omega
    · exact h4
    · omega
  · intro hh
    exact Or.inr ⟨trivial, Or.inl hh⟩

lemma dtLt_cc_iff (t : PyDateTime) (a b : Nat) :
    dtLt ({ day := t.day, hour := a } : PyDateTime) { day := t.day, hour := b } = true
      ↔ a < b := by
  simp only [dtLt, Bool.or_eq_true, Bool.and_eq_true, decide_eq_true_eq]
  constructor
  · rintro (h1 | ⟨-, h4 | ⟨-, h6⟩⟩)
    · omega
    · exact h4
    · omega
  · intro hh
    exact Or.inr ⟨trivial, Or.inl hh⟩

/-- C2: every outbound-fetch failure is caught at the Fetcher boundary: the
violations fetcher answers the empty list, the lis-pendens and tax fetchers
answer their built-in demo fallback, no exception escapes (each fetcher is a
total function of the fetch outcome), and after a refresh whose violations
fetch failed, `GET /health` reports a violations count of 0 without
raising. -/
theorem fetchers_catch_errors_at_boundary :
    ∀ (e : String) (nowDays : Int) (rL rT : Rng) (c : Cache) (now : PyDateTime),
      scrape_violations (.error e) = [] ∧
      scrape_lis_pendens (.error e) nowDays rL = generate_realistic_lis_pendens nowDays rL ∧
      scrape_tax_delinquent (.error e) rT = generate_realistic_tax_delinquent rT ∧
      (health_counts (run_all_scrapers c (.error e) (.error e) (.error e) now rL rT)).violations = 0 :=
  fun _ _ _ _ _ _ => ⟨rfl, rfl, rfl, rfl⟩

/-- C3: for every feature list, the violations fetcher's output is
non-increasing by score, and the sort is stable: for every score value the
equal-score records appear in the output exactly as they appear in the
normalized input sequence. -/
theorem scrape_violations_sorted_and_stable :
    ∀ feats : List Attrs,
      (scrape_violations (.ok (some feats))).Pairwise (fun a b => b.score ≤ a.score) ∧
      ∀ s : Nat,
        (scrape_violations (.ok (some feats))).filter (fun r => r.score == s) =
          (feats.map normalize_violation).filter (fun r => r.score == s) := by
  intro feats
  cases feats with
  | nil => exact ⟨by simp [scrape_violations], by simp [scrape_violations]⟩
  | cons a l =>
    have h : scrape_violations (.ok (some (a :: l))) =
        sortByScoreDesc ((a :: l).map normalize_violation) := by
      simp [scrape_violations]
    rw [h]
    exact ⟨pairwise_sortByScoreDesc _, fun s => filter_sortByScoreDesc s _⟩

/-- C6: the desktop view's address filter is a pure narrowing — the filtered
list is a sublist of the cached list, every filtered record contains the
search string case-insensitively in its address, an absent search leaves the
list untouched, and the handler returns the cache unchanged. -/
theorem home_filter_pure_narrowing :
    ∀ (s : String) (data : List Record) (req : HomeRequest) (c : Cache),
      (home_filter (some s) data).Sublist data ∧
      (∀ r ∈ home_filter (some s) data,
        hasSub (lowerChars r.address.data) (lowerChars s.data) = true) ∧
      home_filter none data = data ∧
      (home_render req c).2 = c := by
  intro s data req c
  refine ⟨?_, ?_, rfl, rfl⟩
  · simp only [home_filter]
    by_cases hs : s = ""
    · simp [hs]
    · simp only [if_neg hs]
      exact List.filter_sublist data
  · intro r hr
    simp only [home_filter] at hr
    by_cases hs : s = ""
    · subst hs
      simp [hasSub, lowerChars]
    · simp only [if_neg hs] at hr
      exact (List.mem_filter.mp hr).2

/-- C4 counterexample: at 15:00:00.500000 the next-scheduled-refresh the
spec describes is exactly 22:00 of the same day, but `schedule_scrapers`
computes 22:00:00.500000 — `replace()` keeps the current microsecond — so
the computed value does not equal the earliest scheduled time strictly
after `t`. -/
theorem schedule_next_microsecond_counterexample :
    spec_next_refresh c4_now = { day := 0, hour := 22 } ∧
    schedule_next c4_now ≠ { day := 0, hour := 22 } ∧
    schedule_next c4_now = { day := 0, hour := 22, microsecond := 500000 } := by
  refine ⟨?_, ?_, ?_⟩ <;> decide

/-- C4 (amended): the computed next refresh equals the earliest of today's
08:00, 14:00, 22:00 strictly after `t` — or 08:00 the following day when
none remains — except that it carries `t`'s microsecond field; at
microsecond-zero instants the spec's scenarios hold exactly (15:00 ↦ 22:00
same day, 23:00 ↦ 08:00 next day). -/
theorem schedule_next_amended_correct :
    (∀ t : PyDateTime,
      schedule_next t = { spec_next_refresh t with microsecond := t.microsecond }) ∧
    schedule_next { day := 0, hour := 15 } = { day := 0, hour := 22 } ∧
    schedule_next { day := 0, hour := 23 } = { day := 1, hour := 8 } := by
  refine ⟨?_, by decide, by decide⟩
  intro t
  rcases Nat.lt_or_ge t.hour 8 with h8 | h8
  · have b8 : dtLt t (replace_hms t 8) = true := (dtLt_replace_iff t 8).mpr h8
    have b14 : dtLt t (replace_hms t 14) = true :=
      (dtLt_replace_iff t 14).mpr (by omega)
    have b22 : dtLt t (replace_hms t 22) = true :=
      (dtLt_replace_iff t 22).mpr (by omega)
    have c8 : dtLt t ({ day := t.day, hour := 8 } : PyDateTime) = true :=
      (dtLt_cand_iff t 8).mpr h8
    have c14 : dtLt t ({ day := t.day, hour := 14 } : PyDateTime) = true :=
      (dtLt_cand_iff t 14).mpr (by omega)
    have c22 : dtLt t ({ day := t.day, hour := 22 } : PyDateTime) = true :=
      (dtLt_cand_iff t 22).mpr (by omega)
    have r148 : dtLt (replace_hms t 14) (replace_hms t 8) = false :=
      dtLt_false_of_iff (dtLt_rr_iff t 14 8) (by omega)
    have r228 : dtLt (replace_hms t 22) (replace_hms t 8) = false :=
      dtLt_false_of_iff (dtLt_rr_iff t 22 8) (by omega)
    have s148 : dtLt ({ day := t.day, hour := 14 } : PyDateTime)
        { day := t.day, hour := 8 } = false :=
      dtLt_false_of_iff (dtLt_cc_iff t 14 8) (by omega)
    have s228 : dtLt ({ day := t.day, hour := 22 } : PyDateTime)
        { day := t.day, hour := 8 } = false :=
      dtLt_false_of_iff (dtLt_cc_iff t 22 8) (by omega)
    simp only [schedule_next, spec_next_refresh, pyMin, List.map_cons,
      List.map_nil, List.filter_cons, List.filter_nil, b8, b14, b22, c8, c14, c22]
    simp [r148, r228, s148, s228]
    try rfl
  · rcases Nat.lt_or_ge t.hour 14 with h14 | h14
    · have b8 : dtLt t (replace_hms t 8) = false :=
        dtLt_false_of_iff (dtLt_replace_iff t 8) (by omega)
      have b14 : dtLt t (replace_hms t 14) = true :=
        (dtLt_replace_iff t 14).mpr h14
      have b22 : dtLt t (replace_hms t 22) = true :=
        (dtLt_replace_iff t 22).mpr (by omega)
      have c8 : dtLt t ({ day := t.day, hour := 8 } : PyDateTime) = false :=
        dtLt_false_of_iff (dtLt_cand_iff t 8) (by omega)
      have c14 : dtLt t ({ day := t.day, hour := 14 } : PyDateTime) = true :=
        (dtLt_cand_iff t 14).mpr h14
      have c22 : dtLt t ({ day := t.day, hour := 22 } : PyDateTime) = true :=
        (dtLt_cand_iff t 22).mpr (by omega)
      have r2214 : dtLt (replace_hms t 22) (replace_hms t 14) = false :=
        dtLt_false_of_iff (dtLt_rr_iff t 22 14) (by omega)
      have s2214 : dtLt ({ day := t.day, hour := 22 } : PyDateTime)
          { day := t.day, hour := 14 } = false :=
        dtLt_false_of_iff (dtLt_cc_iff t 22 14) (by omega)
      simp only [schedule_next, spec_next_refresh, pyMin, List.map_cons,
        List.map_nil, List.filter_cons, List.filter_nil, b8, b14, b22, c8, c14, c22]
      simp [r2214, s2214]
      try rfl
    · rcases Nat.lt_or_ge t.hour 22 with h22 | h22
      · have b8 : dtLt t (replace_hms t 8) = false :=
          dtLt_false_of_iff (dtLt_replace_iff t 8) (by omega)
        have b14 : dtLt t (replace_hms t 14) = false :=
          dtLt_false_of_iff (dtLt_replace_iff t 14) (by omega)
        have b22 : dtLt t (replace_hms t 22) = true :=
          (dtLt_replace_iff t 22).mpr h22
        have c8 : dtLt t ({ day := t.day, hour := 8 } : PyDateTime) = false :=
          dtLt_false_of_iff (dtLt_cand_iff t 8) (by omega)
        have c14 : dtLt t ({ day := t.day, hour := 14 } : PyDateTime) = false :=
          dtLt_false_of_iff (dtLt_cand_iff t 14) (by omega)
        have c22 : dtLt t ({ day := t.day, hour := 22 } : PyDateTime) = true :=
          (dtLt_cand_iff t 22).mpr h22
        simp only [schedule_next, spec_next_refresh, pyMin, List.map_cons,
          List.map_nil, List.filter_cons, List.filter_nil, b8, b14, b22, c8, c14, c22]
        simp
        try rfl
      · have b8 : dtLt t (replace_hms t 8) = false :=
          dtLt_false_of_iff (dtLt_replace_iff t 8) (by omega)
        have b14 : dtLt t (replace_hms t 14) = false :=
          dtLt_false_of_iff (dtLt_replace_iff t 14) (by omega)
        have b22 : dtLt t (replace_hms t 22) = false :=
          dtLt_false_of_iff (dtLt_replace_iff t 22) (by omega)
        have c8 : dtLt t ({ day := t.day, hour := 8 } : PyDateTime) = false :=
          dtLt_false_of_iff (dtLt_cand_iff t 8) (by omega)
        have c14 : dtLt t ({ day := t.day, hour := 14 } : PyDateTime) = false :=
          dtLt_false_of_iff (dtLt_cand_iff t 14) (by omega)
        have c22 : dtLt t ({ day := t.day, hour := 22 } : PyDateTime) = false :=
          dtLt_false_of_iff (dtLt_cand_iff t 22) (by omega)
        simp only [schedule_next, spec_next_refresh, pyMin, List.map_cons,
          List.map_nil, List.filter_cons, List.filter_nil, b8, b14, b22, c8, c14, c22]
        simp
        try rfl

/-- C7 counterexample: the desktop endpoint renders a record of score 5
although the request asked for `min_score=9`/`max_score=10` — no
score-range filter runs. -/
theorem home_min_score_ignored_counterexample :
    ¬ ∀ r ∈ home_endpoint c7_req c7_cache,
        (9 : Int) ≤ (r.score : Int) ∧ (r.score : Int) ≤ 10 := by
  intro h
  have hmem : c7_record ∈ home_endpoint c7_req c7_cache := by decide
  have := (h c7_record hmem).1
  have hs : c7_record.score = 5 := rfl
  rw [hs] at this
  omega

/-- C7 (amended): `GET /` reads only `data_type` and `search`; the
`min_score`/`max_score` query values are ignored, so the rendered records
are exactly the address-filtered cache records whatever score range the
request supplies. -/
theorem home_ignores_score_range :
    ∀ (req : HomeRequest) (c : Cache) (m1 m2 : Option Int),
      home_endpoint req c = home_filter req.search (home_data req.data_type c) ∧
      home_endpoint { req with min_score := m1, max_score := m2 } c =
        home_endpoint req c :=
  fun _ _ _ _ => ⟨rfl, rfl⟩

/-- C1 counterexample: on the spec's own scenario ("Structural Damage -
Unsafe Building", status "Open") the spec rule yields 10 but `calc_score`
yields 9 — the code has only the three-word keyword groups and applies no
status bonus, so the Scorer does not follow the spec rule and the scenario
score is not 10. -/
theorem calc_score_spec_rule_counterexample :
    spec_calc_score "Structural Damage - Unsafe Building" "Open" = 10 ∧
    calc_score scenario_attrs = 9 ∧
    calc_score scenario_attrs ≠
      spec_calc_score "Structural Damage - Unsafe Building" "Open" :=
  ⟨by decide, by decide, by decide⟩

/-- C1 (amended): `calc_score` follows the first-matching-group rule with
base 5 and the groups {structural, unsafe, condemned} → 9,
{fire, electrical, hazard} → 8, {overgrown, trash, vacant} → 6, with no
status adjustment; the spec scenario therefore scores 9, and ZIP extraction
on its address yields "40211". -/
theorem calc_score_amended_correct :
    (∀ a : Attrs, calc_score a = calc_score_amended a) ∧
    calc_score scenario_attrs = 9 ∧
    extract_zip "1234 Main St, Louisville, KY 40211" = "40211" :=
  ⟨fun _ => rfl, by decide, by decide⟩

/-- C5: for every cached record collection, the CSV export of each source is
exactly the source's fixed header line followed by one data line per cached
record (no filtering), so three cached violations give 4 lines; and every
violations row's ZIP column is the record's zip, written unquoted, which is
either empty or exactly five digits. -/
theorem export_rows_match_cache (c : Cache)
    (hz : ∀ r ∈ c.violations, ∃ a, r.zip = extract_zip a) :
    (export_result "violations" c =
      .ok (csv_row violations_header ::
        (List.enumFrom 1 c.violations).map
          (fun p => csv_row (violations_fields p.1 p.2)))) ∧
    (csv_row violations_header ::
      (List.enumFrom 1 c.violations).map
        (fun p => csv_row (violations_fields p.1 p.2))).length
      = 1 + c.violations.length ∧
    (export_result "lis_pendens" c =
      .ok (csv_row lis_header ::
        (List.enumFrom 1 c.lis_pendens).map
          (fun p => csv_row (lis_fields p.1 p.2)))) ∧
    (export_result "tax_delinquent" c =
      .ok (csv_row tax_header ::
        (List.enumFrom 1 c.tax_delinquent).map
          (fun p => csv_row (tax_fields p.1 p.2)))) ∧
    ∀ i : Nat, ∀ r ∈ c.violations,
      (violations_fields i r).getLast? = some r.zip ∧
      csv_field r.zip = r.zip ∧
      (r.zip = "" ∨
        (r.zip.length = 5 ∧ ∀ ch ∈ r.zip.data, ch.isDigit = true)) := by
  refine ⟨rfl, ?_, rfl, rfl, ?_⟩
  · simp only [List.length_cons, List.length_map, List.enumFrom_length]
    omega
  · intro i r hr
    obtain ⟨a, ha⟩ := hz r hr
    have hfield : csv_field r.zip = r.zip := by
      rcases extract_zip_shape a with h0 | ⟨h5, hd⟩
      · rw [ha, h0]; rfl
      · rw [ha]; exact csv_field_of_digits hd
    refine ⟨rfl, hfield, ?_⟩
    rw [ha]
    exact extract_zip_shape a

/-- C5 witness: the concrete cache with three violations records. -/
theorem export_rows_match_cache_witness :
    (export_result "violations" w_cache =
      .ok (csv_row violations_header ::
        (List.enumFrom 1 w_cache.violations).map
          (fun p => csv_row (violations_fields p.1 p.2)))) ∧
    (csv_row violations_header ::
      (List.enumFrom 1 w_cache.violations).map
        (fun p => csv_row (violations_fields p.1 p.2))).length
      = 1 + w_cache.violations.length ∧
    1 + w_cache.violations.length = 4 := by
  have hz : ∀ r ∈ w_cache.violations, ∃ a, r.zip = extract_zip a := by
    intro r hr
    simp only [w_cache, List.mem_cons, List.not_mem_nil, or_false] at hr
    rcases hr with rfl | rfl | rfl
    · exact ⟨"1234 Main St, Louisville, KY 40211", rfl⟩
    · exact ⟨"77 Broadway, Louisville, KY 40202", rfl⟩
    · exact ⟨"5 Liberty St", rfl⟩
  exact ⟨(export_rows_match_cache w_cache hz).1,
    (export_rows_match_cache w_cache hz).2.1, rfl⟩

/-- C8 counterexample: the tax fetcher's PDF branch emits a record with the
fixed score 7 and years "See Record"; no years value `y` satisfies
`score = min(9, 5 + y)` together with the record's years text, so fetcher
output is not scored by the `min(9, 5 + years_delinquent)` formula. -/
theorem tax_pdf_score_counterexample :
    tax_rec_w ∈ scrape_tax_delinquent (.ok (.ok (200, [[tax_line_w]]))) wRng ∧
    ¬ ∃ y : Nat, tax_rec_w.years = yearsStr y ∧ tax_rec_w.score = min 9 (5 + y) := by
  constructor
  · have hp : tax_parsed (.ok (200, [[tax_line_w]])) = [tax_rec_w] := by decide
    have h20 : (tax_parsed (.ok (200, [[tax_line_w]]))).length < 20 := by
      rw [hp]; decide
    rw [scrape_tax_ok_eq wRng h20, hp]
    exact List.mem_append.mpr (Or.inl (List.mem_singleton.mpr rfl))
  · rintro ⟨y, hy, -⟩
    exact yearsStr_ne_seeRecord y hy.symm

/-- C8 (amended): records parsed from the PDF receive the fixed score 7 and
years "See Record"; only the demo records of
`generate_realistic_tax_delinquent` are scored `min(9, 5 + years)` with
`years` drawn from 1..7. -/
theorem tax_scores_amended :
    (∀ (line : String) (rec : Record), parse_tax_line line = some rec →
      rec.score = 7 ∧ rec.years = "See Record") ∧
    (∀ (r : Rng) (rec : Record), rec ∈ generate_realistic_tax_delinquent r →
      ∃ y, 1 ≤ y ∧ y ≤ 7 ∧ rec.score = min 9 (5 + y) ∧ rec.years = yearsStr y) :=
  ⟨fun _ _ h => parse_tax_line_shape h,
   fun _ _ h => gen_tax_list_mem 50 _ h⟩

/-- C8 witness: the concrete PDF line and the first demo record. -/
theorem tax_scores_amended_witness :
    (tax_rec_w.score = 7 ∧ tax_rec_w.years = "See Record") ∧
    ∃ y, 1 ≤ y ∧ y ≤ 7 ∧ (gen_tax_step wRng).1.score = min 9 (5 + y) ∧
      (gen_tax_step wRng).1.years = yearsStr y :=
  ⟨tax_scores_amended.1 tax_line_w tax_rec_w (by decide),
   tax_scores_amended.2 wRng (gen_tax_step wRng).1 (by
    show (gen_tax_step wRng).1 ∈ gen_tax_list 50 wRng
    have h : gen_tax_list 50 wRng =
        (gen_tax_step wRng).1 :: gen_tax_list 49 (gen_tax_step wRng).2 := rfl
    rw [h]
    exact List.mem_cons_self _ _)⟩

/-- C9 counterexample: the query value "next_scrape" is not one of the three
source names, yet `GET /export?type=next_scrape` raises a `TypeError`
instead of falling back — the bookkeeping keys of `data_cache` share the
namespace `data_cache.get(type, [])` consults. -/
theorem export_bookkeeping_key_raises :
    ("next_scrape" ≠ "violations" ∧ "next_scrape" ≠ "lis_pendens" ∧
      "next_scrape" ≠ "tax_delinquent") ∧
    export_result "next_scrape" ({} : Cache) =
      .error "TypeError: argument is not iterable" :=
  ⟨by decide, rfl⟩

/-- C9 (amended): the desktop view falls back to the violations collection
for every `data_type` other than the two named alternatives and never
raises, and the CSV export answers a header-only CSV for every `type` that
is neither a source name nor one of the cache's bookkeeping keys
(`last_updated`, `next_scrape`); for those two keys it raises. -/
theorem unknown_type_fallback (dt : String) (c : Cache) :
    (dt ≠ "lis_pendens" → dt ≠ "tax_delinquent" → home_data dt c = c.violations) ∧
    (dt ≠ "violations" → dt ≠ "lis_pendens" → dt ≠ "tax_delinquent" →
      dt ≠ "last_updated" → dt ≠ "next_scrape" →
      export_result dt c = .ok [csv_row tax_header]) := by
  constructor
  · intro h1 h2
    simp [home_data, h1, h2]
  · intro h1 h2 h3 h4 h5
    simp [export_result, cache_get, h1, h2, h3, h4, h5]

/-- C9 witness: the unknown query value "bogus". -/
theorem unknown_type_fallback_witness :
    home_data "bogus" ({} : Cache) = ({} : Cache).violations ∧
    export_result "bogus" ({} : Cache) = .ok [csv_row tax_header] :=
  ⟨(unknown_type_fallback "bogus" {}).1 (by decide) (by decide),
   (unknown_type_fallback "bogus" {}).2 (by decide) (by decide) (by decide)
     (by decide) (by decide)⟩

/-- C10: the tax fetcher's result never exceeds 100 records, and whenever
fewer than 20 records were parsed from the PDF — a fully successful fetch
included — the result is exactly the parsed records followed by the first
50 demo records, so its length is the parsed count plus 50. -/
theorem tax_supplement_and_cap :
    (∀ (fetch : Except String (Except String (Nat × List (List String)))) (r : Rng),
      (scrape_tax_delinquent fetch r).length ≤ 100) ∧
    (∀ (inner : Except String (Nat × List (List String))) (r : Rng),
      (tax_parsed inner).length < 20 →
      scrape_tax_delinquent (.ok inner) r =
        tax_parsed inner ++ (generate_realistic_tax_delinquent r).take 50 ∧
      (scrape_tax_delinquent (.ok inner) r).length =
        (tax_parsed inner).length + 50) := by
  constructor
  · exact scrape_tax_len_le
  · intro inner r h
    have he := scrape_tax_ok_eq r h
    refine ⟨he, ?_⟩
    rw [he, List.length_append,
      List.take_of_length_le (le_of_eq (generate_tax_length r)),
      generate_tax_length]

/-- C10 witness: an inner download failure parses zero records and is
supplemented with the 50 demo records. -/
theorem tax_supplement_and_cap_witness :
    scrape_tax_delinquent (.ok (.error "boom")) wRng =
      tax_parsed (.error "boom") ++ (generate_realistic_tax_delinquent wRng).take 50 ∧
    (scrape_tax_delinquent (.ok (.error "boom")) wRng).length =
      (tax_parsed (.error "boom")).length + 50 :=
  tax_supplement_and_cap.2 (.error "boom") wRng (by decide)

/-! ## Sanity checks of the embedded regex and formatting models -/

theorem extract_zip_scenario_positive :
    extract_zip "1234 Main St, Louisville, KY 40211" = "40211" := by decide

theorem extract_zip_no_five_digit_run : extract_zip "123 MAIN ST" = "" := by decide

theorem dollarSearch_example :
    dollarSearch "JOHN DOE 123 MAIN ST $5,000".data = some "$5,000".data := by decide

theorem addrSearch_example :
    addrSearch taxAlts "123 MAIN ST $5,000".data = some "123 MAIN ST".data := by decide

theorem extract_address_from_legal_example :
    extract_address_from_legal "LOT 5 AT 456 OAK STREET BLOCK 2" =
      some "456 OAK STREET, Louisville, KY" := by decide

theorem commaFmt_examples : commaFmt 1234567 = "1,234,567" ∧ commaFmt 345 = "345" :=
  ⟨by decide, by decide⟩

theorem yearsStr_examples : yearsStr 1 = "1 year" ∧ yearsStr 3 = "3 years" :=
  ⟨by decide, by decide⟩
